import Mathlib

/-!
Shallow embedding of `src/internal/pyscript/geoexport.py`.

The script converts a batch of geographic datasets (property maps plus WKT
geometries) into vector files through the QGIS engine, emitting one streamed
result record per dataset.  The QGIS library itself is external to the
repository; it is modelled here as an abstract oracle structure `Qgis` whose
fields stand for the engine calls the script makes
(`QgsCoordinateReferenceSystem`, `QgsCoordinateTransform`, `QgsGeometry`,
`QgsVectorFileWriter`, filesystem existence checks).  Engine calls that can
raise a Python exception are modelled as `Except`-valued oracle fields; the
script's own `try/except` blocks become pattern matches on those results.

The mutable state of a `GeoProcessor` instance (the CRS cache, the transform
cache, the default CRS and the stderr diagnostics emitted by `_build_crs`) is
threaded explicitly through a `RunState` record.  The `constructed` field of
`RunState` is ghost instrumentation: it records the key of every successful
`QgsCoordinateTransform` construction so that "a transform is constructed at
most once per pair" can be stated; it never influences control flow.

Paths are modelled as POSIX strings: `pathlib.Path(a) / b` becomes
`a ++ "/" ++ b` and `.as_posix()` is the identity on these strings.
-/

namespace GeoExport

/-- Python values that can appear in a feature's property map.  A property
value of JSON `null` is modelled by storing `none` in the map. -/
inductive PValue where
  | str (s : String)
  | num (n : Int)
  | boolean (b : Bool)
deriving DecidableEq

/-- The `QMetaType.Type` tags used by the script's field definitions. -/
inductive QType where
  | int
  | double
  | qstring
deriving DecidableEq

/-- Mirrors the `FieldDef` dataclass of `geoexport.py`. -/
structure FieldDef where
  name : String
  type : QType
  displayAlias : String
  comment : String
  length : Nat
  precision : Nat
deriving DecidableEq

/-- Mirrors the module-level constant `FIELD_DEFINITIONS`. -/
def FIELD_DEFINITIONS : List FieldDef := [
  ⟨"JZD", QType.int, "界址点数", "几何节点数量", 0, 0⟩,
  ⟨"AREA", QType.double, "地块面积", "平方米", 32, 6⟩,
  ⟨"DKBH", QType.qstring, "地块编号", "地块编号", 32, 0⟩,
  ⟨"DKMC", QType.qstring, "地块名称", "地块名称", 64, 0⟩,
  ⟨"TXSX", QType.qstring, "图形属性", "点线面类型", 16, 0⟩,
  ⟨"TFH", QType.qstring, "图幅号", "图幅号", 32, 0⟩,
  ⟨"DKYT", QType.qstring, "地块用途", "用途", 64, 0⟩,
  ⟨"DLBM", QType.qstring, "地类编码", "分类编码", 32, 0⟩,
  ⟨"WJLJ", QType.qstring, "文件路径", "原始文件路径", 254, 0⟩]

/-- Mirrors the module-level constant `FIELD_MAPPING`. -/
def FIELD_MAPPING : List (String × List String) := [
  ("JZD", ["bp_cnt"]),
  ("AREA", ["area"]),
  ("DKBH", ["pid"]),
  ("DKMC", ["pname"]),
  ("TXSX", ["gtype"]),
  ("TFH", ["sheet"]),
  ("DKYT", ["usage"]),
  ("DLBM", ["code"]),
  ("WJLJ", ["source_path"])]

/-- First-match association-list lookup, modelling a Python `dict` access
(dict keys are unique, so first match is the match). -/
def dictFind {κ α : Type} [DecidableEq κ] (k : κ) : List (κ × α) → Option α
  | [] => none
  | (k₁, v) :: rest => if k₁ = k then some v else dictFind k rest

/-- Mirrors the `Feature` dataclass: a property map plus a WKT string. -/
structure Feature where
  properties : List (String × Option PValue)
  wkt : String
deriving DecidableEq

/-- Mirrors the `Dataset` dataclass. -/
structure Dataset where
  features : List Feature
  hash : String
  layer_name : String
  source_crs : String
  source_path : String
  total_features : Int
deriving DecidableEq

/-- Mirrors the `ExportPayload` dataclass. -/
structure ExportPayload where
  datasets : List Dataset
  driver : String
  merge : Bool
  output_dir : String
  overwrite : Bool
  target_crs : String
deriving DecidableEq

/-- The stderr diagnostics of `_build_crs` that the claims mention:
the warning for an empty CRS definition and the error naming an invalid one. -/
inductive LogMsg where
  | warnEmptyCrs
  | errInvalidCrs (defCrs : String)
deriving DecidableEq

/-- The two `QgsVectorFileWriter` conflict actions the script can select. -/
inductive SaveAction where
  | createOrOverwriteFile
  | createOrOverwriteLayer
deriving DecidableEq

/-- Geometry types of `QgsWkbTypes`; the script only ever passes `polygon`,
the other constructors exist so that this fact is not vacuous. -/
inductive WkbType where
  | polygon
  | point
  | lineString
deriving DecidableEq

/-- Mirrors the fields of `QgsVectorFileWriter.SaveVectorOptions` that the
script assigns in `_prepare_save_options`. -/
structure SaveOptions where
  driverName : String
  layerName : String
  fileEncoding : String
  actionOnExistingFile : SaveAction
  layerOptions : List String
deriving DecidableEq

/-- The arguments `_write_features` passes to `QgsVectorFileWriter.create`,
parametrised by the engine's CRS type. -/
structure WriterRequest (C : Type) where
  path : String
  fields : List FieldDef
  wkbType : WkbType
  destCrs : C
  opts : SaveOptions

/-- A built `QgsFeature`: the ordered attribute row plus an optional
geometry, parametrised by the engine's geometry type. -/
structure QFeature (G : Type) where
  attributes : List (Option PValue)
  geometry : Option G
deriving DecidableEq

/-- Abstract model of the QGIS engine calls made by `geoexport.py`.
`Except`-valued fields model engine calls that can raise a Python
exception; `Bool`-valued fields model calls that report through flags. -/
structure Qgis where
  CRS : Type
  Transform : Type
  Geom : Type
  Writer : Type
  construct : String → CRS
  isValid : CRS → Bool
  authid : CRS → String
  toWkt : CRS → String
  crsEq : CRS → CRS → Bool
  mkTransform : CRS → CRS → Except String Transform
  fromWkt : String → Except String Geom
  isEmptyGeom : Geom → Bool
  transformGeom : Transform → Geom → Except String Geom
  pathExists : String → Bool
  createWriter : WriterRequest CRS → Writer
  hasError : Writer → Bool
  addFeatures : Writer → List (QFeature Geom) → Bool

/-- The mutable state of a `GeoProcessor` instance: the two caches, the
default CRS and the `_build_crs` diagnostics.  `constructed` is ghost
instrumentation recording each successful transform construction. -/
structure RunState (Q : Qgis) where
  crs_cache : List (String × Q.CRS)
  transform_cache : List ((String × String) × Q.Transform)
  constructed : List (String × String)
  default_crs : Q.CRS
  log : List LogMsg

/-- The per-dataset result record printed to stdout by `run_export`. -/
structure ResultRecord where
  hash : String
  status : String
  error : Option String
deriving DecidableEq

/-- The script's canonical cache identity of a CRS:
`src_crs.authid() or src_crs.toWkt()` (Python `or` on strings). -/
def canonKey (Q : Qgis) (c : Q.CRS) : String :=
  if Q.authid c = "" then Q.toWkt c else Q.authid c

/-- Mirrors `GeoProcessor._build_crs`: empty definition warns and yields the
default CRS; a cached definition is returned as is; otherwise the engine
constructs a CRS which is cached when valid, while an invalid one logs an
error and yields the default CRS without touching the cache. -/
def buildCrs (Q : Qgis) (st : RunState Q) (def_crs : String) : Q.CRS × RunState Q :=
  if def_crs = "" then
    (st.default_crs, { st with log := st.log ++ [LogMsg.warnEmptyCrs] })
  else
    match dictFind def_crs st.crs_cache with
    | some c => (c, st)
    | none =>
      let c := Q.construct def_crs
      if Q.isValid c then
        (c, { st with crs_cache := (def_crs, c) :: st.crs_cache })
      else
        (st.default_crs, { st with log := st.log ++ [LogMsg.errInvalidCrs def_crs] })

/-- Mirrors `GeoProcessor._build_transform`: cache lookup first, then the
identity check returning `none`, then construction (which may raise, modelled
by `Except.error`) followed by caching.  The first component is the value of
the Python call: `Except.error` when the constructor raised, otherwise the
returned `QgsCoordinateTransform | None`. -/
def buildTransform (Q : Qgis) (st : RunState Q) (src dst : Q.CRS) :
    Except String (Option Q.Transform) × RunState Q :=
  let key := (canonKey Q src, canonKey Q dst)
  match dictFind key st.transform_cache with
  | some t => (Except.ok (some t), st)
  | none =>
    if Q.crsEq src dst then (Except.ok none, st)
    else
      match Q.mkTransform src dst with
      | Except.error e => (Except.error e, st)
      | Except.ok t =>
        (Except.ok (some t),
         { st with transform_cache := (key, t) :: st.transform_cache,
                   constructed := key :: st.constructed })

/-- The result of `FIELD_MAPPING.get(name, [])`. -/
def fieldMappingFor (name : String) : List String :=
  (dictFind name FIELD_MAPPING).getD []

/-- The scan `for source_key in possible_source_keys: if source_key in props`:
the first key present in the property map wins (its stored value may itself
be `null`); when no key is present the result is `none`. -/
def lookupFirst (props : List (String × Option PValue)) : List String → Option PValue
  | [] => none
  | k :: ks =>
    match dictFind k props with
    | some v => v
    | none => lookupFirst props ks

/-- The attribute row `_extract_attributes` builds once `current_dataset` is
known to be set: one entry per `FIELD_DEFINITIONS` element in order, with the
reserved `WJLJ` field taken from the dataset's `source_path`. -/
def extractList (ds : Dataset) (props : List (String × Option PValue)) :
    List (Option PValue) :=
  FIELD_DEFINITIONS.map fun fd =>
    if fd.name = "WJLJ" then some (PValue.str ds.source_path)
    else lookupFirst props (fieldMappingFor fd.name)

/-- Mirrors `GeoProcessor._extract_attributes`, including the `RuntimeError`
raised when `current_dataset` is not set. -/
def extractAttributes (current : Option Dataset)
    (props : List (String × Option PValue)) : Except String (List (Option PValue)) :=
  match current with
  | none => Except.error "current_dataset must be set before _extract_attributes"
  | some ds => Except.ok (extractList ds props)

/-- Mirrors `GeoProcessor._create_feature`: the whole body runs under
`try/except Exception`, so any raising step (attribute extraction, WKT
parsing, coordinate transform) yields the failure marker `none`.  An empty
WKT string, or a parsed-but-empty geometry, leaves the geometry unset. -/
def createFeature (Q : Qgis) (current : Option Dataset) (fd : Feature)
    (transform : Option Q.Transform) : Option (QFeature Q.Geom) :=
  match extractAttributes current fd.properties with
  | Except.error _ => none
  | Except.ok attrs =>
    if fd.wkt = "" then some ⟨attrs, none⟩
    else
      match Q.fromWkt fd.wkt with
      | Except.error _ => none
      | Except.ok geom =>
        if Q.isEmptyGeom geom then some ⟨attrs, none⟩
        else
          match transform with
          | none => some ⟨attrs, some geom⟩
          | some t =>
            match Q.transformGeom t geom with
            | Except.error _ => none
            | Except.ok g => some ⟨attrs, some g⟩

/-- The list comprehension of `run_export` step 2: build every feature and
keep only the successfully built ones. -/
def buildFeatures (Q : Qgis) (current : Option Dataset) (l : List Feature)
    (transform : Option Q.Transform) : List (QFeature Q.Geom) :=
  l.filterMap fun f => createFeature Q current f transform

/-- Python `str.upper()` on the ASCII driver names used here
(character-by-character uppercase). -/
def pyUpper (s : String) : String :=
  ⟨s.data.map Char.toUpper⟩

/-- The container-driver classification of `_prepare_save_options`:
`driver_name.upper() in {"GPKG", "OPENFILEGDB"}`. -/
def isContainer (driver : String) : Bool :=
  pyUpper driver = "GPKG" ∨ pyUpper driver = "OPENFILEGDB"

/-- `pathlib.Path(dir) / name`, rendered as a POSIX string. -/
def pathJoin (dir name : String) : String :=
  dir ++ "/" ++ name

/-- The `target_path` computed by `_prepare_save_options`: the output
directory itself for container drivers, otherwise the directory joined with
the layer name. -/
def targetPathFor (payload : ExportPayload) (ds : Dataset) : String :=
  if isContainer payload.driver then payload.output_dir
  else pathJoin payload.output_dir ds.layer_name

/-- The `display_path` computed by `_prepare_save_options`. -/
def displayPathFor (payload : ExportPayload) (ds : Dataset) : String :=
  if isContainer payload.driver then
    targetPathFor payload ds ++ "|layername=" ++ ds.layer_name
  else targetPathFor payload ds

/-- The `actionOnExistingFile` computed by `_prepare_save_options`: when the
target exists and `overwrite` is set, overwrite the layer for container
drivers and the file otherwise; in every other case create-or-overwrite. -/
def saveActionFor (Q : Qgis) (payload : ExportPayload) (ds : Dataset) : SaveAction :=
  if Q.pathExists (targetPathFor payload ds) ∧ payload.overwrite then
    if isContainer payload.driver then SaveAction.createOrOverwriteLayer
    else SaveAction.createOrOverwriteFile
  else SaveAction.createOrOverwriteFile

/-- Mirrors `GeoProcessor._prepare_save_options`: returns the save options,
the target path handed to the writer and the display path used for logging. -/
def prepareSaveOptions (Q : Qgis) (payload : ExportPayload) (ds : Dataset) :
    SaveOptions × String × String :=
  ({ driverName := payload.driver
     layerName := ds.layer_name
     fileEncoding := "UTF-8"
     actionOnExistingFile := saveActionFor Q payload ds
     layerOptions :=
       if pyUpper payload.driver = "OPENFILEGDB" then [] else ["SPATIAL_INDEX=YES"] },
   targetPathFor payload ds, displayPathFor payload ds)

/-- The observable outcome of `_write_features`: the returned boolean,
whether `writer.addFeatures` was invoked, and the creation request passed to
`QgsVectorFileWriter.create`. -/
structure WriteOutcome (C : Type) where
  success : Bool
  addAttempted : Bool
  request : WriterRequest C

/-- The argument tuple `_write_features` passes to
`QgsVectorFileWriter.create`: the prepared target path and options, the
processor's fields and the fixed `QgsWkbTypes.Polygon` geometry type. -/
def writerRequestFor (Q : Qgis) (payload : ExportPayload) (ds : Dataset)
    (dest : Q.CRS) : WriterRequest Q.CRS :=
  { path := (prepareSaveOptions Q payload ds).2.1
    fields := FIELD_DEFINITIONS
    wkbType := WkbType.polygon
    destCrs := dest
    opts := (prepareSaveOptions Q payload ds).1 }

/-- Mirrors `GeoProcessor._write_features`: create the writer; a writer
error returns `false`; a non-empty feature list whose bulk add fails returns
`false`; every other path (including the empty feature list, for which no
add is attempted) returns `true`. -/
def writeFeaturesCore (Q : Qgis) (payload : ExportPayload) (ds : Dataset)
    (features : List (QFeature Q.Geom)) (dest : Q.CRS) : WriteOutcome Q.CRS :=
  if Q.hasError (Q.createWriter (writerRequestFor Q payload ds dest)) then
    ⟨false, false, writerRequestFor Q payload ds dest⟩
  else
    match features with
    | [] => ⟨true, false, writerRequestFor Q payload ds dest⟩
    | _ :: _ =>
      if Q.addFeatures (Q.createWriter (writerRequestFor Q payload ds dest)) features then
        ⟨true, true, writerRequestFor Q payload ds dest⟩
      else ⟨false, true, writerRequestFor Q payload ds dest⟩

/-- The boolean `_write_features` returns to `run_export`. -/
def writeFeatures (Q : Qgis) (payload : ExportPayload) (ds : Dataset)
    (features : List (QFeature Q.Geom)) (dest : Q.CRS) : Bool :=
  (writeFeaturesCore Q payload ds features dest).success

/-- One iteration of the `run_export` loop: resolve the source CRS, build or
reuse the transform, build the features, write them, and produce the result
record.  The `except Exception` branch of the loop body corresponds to the
`Except.error` outcome of the transform construction, the one engine call in
the loop modelled as able to raise. -/
def processDataset (Q : Qgis) (payload : ExportPayload) (dest : Q.CRS)
    (st : RunState Q) (ds : Dataset) : ResultRecord × RunState Q :=
  match buildTransform Q (buildCrs Q st ds.source_crs).2 (buildCrs Q st ds.source_crs).1 dest with
  | (Except.error e, st₂) =>
    ({ hash := ds.hash, status := "failed", error := some e }, st₂)
  | (Except.ok tr, st₂) =>
    ({ hash := ds.hash
       status :=
         if writeFeatures Q payload ds (buildFeatures Q (some ds) ds.features tr) dest
         then "processed" else "failed"
       error := none }, st₂)

/-- The `run_export` loop over the datasets, emitting records in order. -/
def runDatasets (Q : Qgis) (payload : ExportPayload) (dest : Q.CRS) :
    RunState Q → List Dataset → List ResultRecord × RunState Q
  | st, [] => ([], st)
  | st, ds :: rest =>
    ((processDataset Q payload dest st ds).1 ::
       (runDatasets Q payload dest (processDataset Q payload dest st ds).2 rest).1,
     (runDatasets Q payload dest (processDataset Q payload dest st ds).2 rest).2)

/-- Mirrors `GeoProcessor.run_export`: resolve the target CRS once, then
process every dataset in order. -/
def runExport (Q : Qgis) (payload : ExportPayload) (st : RunState Q) :
    List ResultRecord × RunState Q :=
  runDatasets Q payload (buildCrs Q st payload.target_crs).1
    (buildCrs Q st payload.target_crs).2 payload.datasets

/-- Mirrors `GeoProcessor.__init__`: empty caches and the default CRS built
from the constant `"EPSG:4526"`.  Were that constant invalid, `_build_crs`
would read the not-yet-assigned `self.default_crs` and raise, aborting the
constructor; that arm is modelled by `none`. -/
def initState (Q : Qgis) : Option (RunState Q) :=
  let c := Q.construct "EPSG:4526"
  if Q.isValid c then
    some { crs_cache := [("EPSG:4526", c)]
           transform_cache := []
           constructed := []
           default_crs := c
           log := [] }
  else none

/-- The process-level outcome of `main`: the exit code and the result
records printed to stdout. -/
structure MainOutcome where
  exitCode : Nat
  records : List ResultRecord
deriving DecidableEq

/-- Mirrors `main`: a missing QGIS installation-root argument exits 1 before
reading input; empty stdin exits 0 with no records; a failing
`json.loads` / `ExportPayload.from_dict` (modelled by the `parseInput`
oracle) exits 1 with no records; a failing processor initialisation exits 1;
otherwise `run_export` runs to completion and the process exits 0. -/
def mainRun (Q : Qgis) (argv1 : Option String) (input : String)
    (parseInput : String → Except String ExportPayload) : MainOutcome :=
  match argv1 with
  | none => ⟨1, []⟩
  | some _ =>
    if input = "" then ⟨0, []⟩
    else
      match parseInput input with
      | Except.error _ => ⟨1, []⟩
      | Except.ok payload =>
        match initState Q with
        | none => ⟨1, []⟩
        | some st₀ => ⟨0, (runExport Q payload st₀).1⟩

/-- One state-mutating engine interaction of a run: the caches are written
only by `_build_crs` and `_build_transform`. -/
inductive RunStep (Q : Qgis) : RunState Q → RunState Q → Prop
  | crs (st : RunState Q) (s : String) : RunStep Q st (buildCrs Q st s).2
  | transform (st : RunState Q) (a b : Q.CRS) : RunStep Q st (buildTransform Q st a b).2

/-- Reflexive-transitive closure of `RunStep`: the states reachable later in
the same run. -/
inductive Reach (Q : Qgis) : RunState Q → RunState Q → Prop
  | refl (st : RunState Q) : Reach Q st st
  | tail {st st₁ st₂ : RunState Q} : Reach Q st st₁ → RunStep Q st₁ st₂ → Reach Q st st₂

/-! ### Association-list lemmas -/

theorem dictFind_cons_self {κ α : Type} [DecidableEq κ] (k : κ) (v : α)
    (l : List (κ × α)) : dictFind k ((k, v) :: l) = some v := by
  simp [dictFind]

theorem dictFind_cons_ne {κ α : Type} [DecidableEq κ] {k k₁ : κ} (v : α)
    (l : List (κ × α)) (h : k₁ ≠ k) : dictFind k ((k₁, v) :: l) = dictFind k l := by
  simp [dictFind, h]

/-! ### State-shape lemmas for the two cache operations -/

theorem buildCrs_preserves (Q : Qgis) (st : RunState Q) (s : String) :
    ((buildCrs Q st s).2).default_crs = st.default_crs ∧
    ((buildCrs Q st s).2).transform_cache = st.transform_cache ∧
    ((buildCrs Q st s).2).constructed = st.constructed := by
  by_cases h1 : s = ""
  · simp [buildCrs, h1]
  · cases h2 : dictFind s st.crs_cache with
    | some c => simp [buildCrs, h1, h2]
    | none =>
      by_cases h3 : Q.isValid (Q.construct s) = true
      · simp [buildCrs, h1, h2, h3]
      · simp [buildCrs, h1, h2, h3]

theorem buildCrs_cache_mono (Q : Qgis) (st : RunState Q) (s₁ : String)
    {s : String} {c : Q.CRS} (h : dictFind s st.crs_cache = some c) :
    dictFind s ((buildCrs Q st s₁).2).crs_cache = some c := by
  by_cases h1 : s₁ = ""
  · simpa [buildCrs, h1] using h
  · cases h2 : dictFind s₁ st.crs_cache with
    | some c₁ => simpa [buildCrs, h1, h2] using h
    | none =>
      by_cases h3 : Q.isValid (Q.construct s₁) = true
      · have hne : s₁ ≠ s := by
          intro he
          rw [he, h] at h2
          exact Option.noConfusion h2
        simp [buildCrs, h1, h2, h3, dictFind_cons_ne _ _ hne, h]
      · simpa [buildCrs, h1, h2, h3] using h

theorem buildCrs_cache_invalid (Q : Qgis) (st : RunState Q) (s₁ : String)
    {s : String} (hv : Q.isValid (Q.construct s) = false)
    (h : dictFind s st.crs_cache = none) :
    dictFind s ((buildCrs Q st s₁).2).crs_cache = none := by
  by_cases h1 : s₁ = ""
  · simpa [buildCrs, h1] using h
  · cases h2 : dictFind s₁ st.crs_cache with
    | some c₁ => simpa [buildCrs, h1, h2] using h
    | none =>
      by_cases h3 : Q.isValid (Q.construct s₁) = true
      · have hne : s₁ ≠ s := by
          intro he
          rw [he] at h3
          rw [h3] at hv
          exact Bool.noConfusion hv
        simp [buildCrs, h1, h2, h3, dictFind_cons_ne _ _ hne, h]
      · simpa [buildCrs, h1, h2, h3] using h

theorem buildTransform_preserves (Q : Qgis) (st : RunState Q) (a b : Q.CRS) :
    ((buildTransform Q st a b).2).crs_cache = st.crs_cache ∧
    ((buildTransform Q st a b).2).default_crs = st.default_crs := by
  cases h1 : dictFind (canonKey Q a, canonKey Q b) st.transform_cache with
  | some t => simp [buildTransform, h1]
  | none =>
    by_cases h2 : Q.crsEq a b = true
    · simp [buildTransform, h1, h2]
    · cases h3 : Q.mkTransform a b with
      | error e => simp [buildTransform, h1, h2, h3]
      | ok t => simp [buildTransform, h1, h2, h3]

theorem buildTransform_cache_mono (Q : Qgis) (st : RunState Q) (a b : Q.CRS)
    {k : String × String} {t : Q.Transform}
    (h : dictFind k st.transform_cache = some t) :
    dictFind k ((buildTransform Q st a b).2).transform_cache = some t := by
  cases h1 : dictFind (canonKey Q a, canonKey Q b) st.transform_cache with
  | some t₁ => simpa [buildTransform, h1] using h
  | none =>
    by_cases h2 : Q.crsEq a b = true
    · simpa [buildTransform, h1, h2] using h
    · cases h3 : Q.mkTransform a b with
      | error e => simpa [buildTransform, h1, h2, h3] using h
      | ok t₁ =>
        have hne : (canonKey Q a, canonKey Q b) ≠ k := by
          intro he
          rw [he, h] at h1
          exact Option.noConfusion h1
        simp [buildTransform, h1, h2, h3, dictFind_cons_ne _ _ hne, h]

/-! ### Reach-closure lemmas -/

theorem reach_default (Q : Qgis) {st st₁ : RunState Q} (h : Reach Q st st₁) :
    st₁.default_crs = st.default_crs := by
  induction h with
  | refl => rfl
  | tail _ hstep ih =>
    cases hstep with
    | crs s => rw [(buildCrs_preserves Q _ s).1, ih]
    | transform a b => rw [(buildTransform_preserves Q _ a b).2, ih]

theorem reach_crs_some (Q : Qgis) {st st₁ : RunState Q} (h : Reach Q st st₁)
    {s : String} {c : Q.CRS} (hf : dictFind s st.crs_cache = some c) :
    dictFind s st₁.crs_cache = some c := by
  induction h with
  | refl => exact hf
  | tail _ hstep ih =>
    cases hstep with
    | crs s₁ => exact buildCrs_cache_mono Q _ s₁ ih
    | transform a b => rw [(buildTransform_preserves Q _ a b).1]; exact ih

theorem reach_crs_invalid (Q : Qgis) {st st₁ : RunState Q} (h : Reach Q st st₁)
    {s : String} (hv : Q.isValid (Q.construct s) = false)
    (hf : dictFind s st.crs_cache = none) :
    dictFind s st₁.crs_cache = none := by
  induction h with
  | refl => exact hf
  | tail _ hstep ih =>
    cases hstep with
    | crs s₁ => exact buildCrs_cache_invalid Q _ s₁ hv ih
    | transform a b => rw [(buildTransform_preserves Q _ a b).1]; exact ih

theorem reach_transform_some (Q : Qgis) {st st₁ : RunState Q} (h : Reach Q st st₁)
    {k : String × String} {t : Q.Transform}
    (hf : dictFind k st.transform_cache = some t) :
    dictFind k st₁.transform_cache = some t := by
  induction h with
  | refl => exact hf
  | tail _ hstep ih =>
    cases hstep with
    | crs s₁ => rw [(buildCrs_preserves Q _ s₁).2.1]; exact ih
    | transform a b => exact buildTransform_cache_mono Q _ a b ih

/-! ### Branch characterisations of the transform-cache operation -/

theorem buildTransform_hit (Q : Qgis) (st : RunState Q) (a b : Q.CRS)
    {t : Q.Transform}
    (h1 : dictFind (canonKey Q a, canonKey Q b) st.transform_cache = some t) :
    buildTransform Q st a b = (Except.ok (some t), st) := by
  simp [buildTransform, h1]

theorem buildTransform_same (Q : Qgis) (st : RunState Q) (a b : Q.CRS)
    (h1 : dictFind (canonKey Q a, canonKey Q b) st.transform_cache = none)
    (h2 : Q.crsEq a b = true) :
    buildTransform Q st a b = (Except.ok none, st) := by
  simp [buildTransform, h1, h2]

theorem buildTransform_raise (Q : Qgis) (st : RunState Q) (a b : Q.CRS)
    {e : String}
    (h1 : dictFind (canonKey Q a, canonKey Q b) st.transform_cache = none)
    (h2 : Q.crsEq a b = false) (h3 : Q.mkTransform a b = Except.error e) :
    buildTransform Q st a b = (Except.error e, st) := by
  simp [buildTransform, h1, h2, h3]

theorem buildTransform_miss (Q : Qgis) (st : RunState Q) (a b : Q.CRS)
    {t : Q.Transform}
    (h1 : dictFind (canonKey Q a, canonKey Q b) st.transform_cache = none)
    (h2 : Q.crsEq a b = false) (h3 : Q.mkTransform a b = Except.ok t) :
    buildTransform Q st a b = (Except.ok (some t),
      { st with
          transform_cache := ((canonKey Q a, canonKey Q b), t) :: st.transform_cache
          constructed := (canonKey Q a, canonKey Q b) :: st.constructed }) := by
  simp [buildTransform, h1, h2, h3]

/-! ### Transform-cache invariant -/

/-- Invariant of the transform cache along a run: each cached construction
happened once (`constructed` is duplicate-free and backed by a cache entry)
and no cached key pairs a CRS identity with itself (the identity comparison
returns before anything is cached). -/
def TransCacheInv (Q : Qgis) (st : RunState Q) : Prop :=
  st.constructed.Nodup ∧
  (∀ k : String × String, k ∈ st.constructed → dictFind k st.transform_cache ≠ none) ∧
  (∀ (k : String × String) (t : Q.Transform),
     dictFind k st.transform_cache = some t → k.1 ≠ k.2)

theorem transCacheInv_step (Q : Qgis)
    (hEq : ∀ a b : Q.CRS, Q.crsEq a b = true ↔ canonKey Q a = canonKey Q b)
    {st st₁ : RunState Q} (hstep : RunStep Q st st₁) (hi : TransCacheInv Q st) :
    TransCacheInv Q st₁ := by
  cases hstep with
  | crs s =>
    unfold TransCacheInv
    rw [(buildCrs_preserves Q st s).2.1, (buildCrs_preserves Q st s).2.2]
    exact hi
  | transform a b =>
    cases h1 : dictFind (canonKey Q a, canonKey Q b) st.transform_cache with
    | some t => rw [buildTransform_hit Q st a b h1]; exact hi
    | none =>
      by_cases h2 : Q.crsEq a b = true
      · rw [buildTransform_same Q st a b h1 h2]; exact hi
      · have h2f : Q.crsEq a b = false := by simpa using h2
        cases h3 : Q.mkTransform a b with
        | error e => rw [buildTransform_raise Q st a b h1 h2f h3]; exact hi
        | ok t =>
          have hkey : (canonKey Q a, canonKey Q b) ∉ st.constructed := by
            intro hmem
            exact hi.2.1 _ hmem h1
          have hne : canonKey Q a ≠ canonKey Q b := by
            intro he
            exact h2 ((hEq a b).mpr he)
          rw [buildTransform_miss Q st a b h1 h2f h3]
          refine ⟨List.nodup_cons.mpr ⟨hkey, hi.1⟩, ?_, ?_⟩
          · intro k hk
            rcases List.mem_cons.mp hk with hk | hk
            · subst hk
              rw [dictFind_cons_self]
              exact Option.noConfusion
            · by_cases hkk : (canonKey Q a, canonKey Q b) = k
              · subst hkk
                rw [dictFind_cons_self]
                exact Option.noConfusion
              · rw [dictFind_cons_ne _ _ hkk]
                exact hi.2.1 k hk
          · intro k t₁ hfind
            by_cases hkk : (canonKey Q a, canonKey Q b) = k
            · subst hkk
              exact hne
            · rw [dictFind_cons_ne _ _ hkk] at hfind
              exact hi.2.2 k t₁ hfind

theorem transCacheInv_reach (Q : Qgis)
    (hEq : ∀ a b : Q.CRS, Q.crsEq a b = true ↔ canonKey Q a = canonKey Q b)
    {st st₁ : RunState Q} (h : Reach Q st st₁) (hi : TransCacheInv Q st) :
    TransCacheInv Q st₁ := by
  induction h with
  | refl => exact hi
  | tail _ hstep ih => exact transCacheInv_step Q hEq hstep ih

/-! ### Branch characterisations of the CRS-cache operation -/

theorem buildCrs_empty (Q : Qgis) (st : RunState Q) :
    buildCrs Q st "" =
      (st.default_crs, { st with log := st.log ++ [LogMsg.warnEmptyCrs] }) := by
  simp [buildCrs]

theorem buildCrs_hit (Q : Qgis) (st : RunState Q) (s : String) {c : Q.CRS}
    (h1 : s ≠ "") (h2 : dictFind s st.crs_cache = some c) :
    buildCrs Q st s = (c, st) := by
  simp [buildCrs, h1, h2]

theorem buildCrs_new (Q : Qgis) (st : RunState Q) (s : String)
    (h1 : s ≠ "") (h2 : dictFind s st.crs_cache = none)
    (h3 : Q.isValid (Q.construct s) = true) :
    buildCrs Q st s =
      (Q.construct s, { st with crs_cache := (s, Q.construct s) :: st.crs_cache }) := by
  simp [buildCrs, h1, h2, h3]

theorem buildCrs_invalid (Q : Qgis) (st : RunState Q) (s : String)
    (h1 : s ≠ "") (h2 : dictFind s st.crs_cache = none)
    (h3 : Q.isValid (Q.construct s) = false) :
    buildCrs Q st s =
      (st.default_crs, { st with log := st.log ++ [LogMsg.errInvalidCrs s] }) := by
  simp [buildCrs, h1, h2, h3]

/-! ### Record shape of one loop iteration -/

theorem processDataset_fst (Q : Qgis) (payload : ExportPayload) (dest : Q.CRS)
    (st : RunState Q) (ds : Dataset) :
    ((processDataset Q payload dest st ds).1).hash = ds.hash ∧
    (((processDataset Q payload dest st ds).1).status = "processed" ∨
     ((processDataset Q payload dest st ds).1).status = "failed") ∧
    (((processDataset Q payload dest st ds).1).error.isSome = true →
     ((processDataset Q payload dest st ds).1).status = "failed") := by
  rcases hq : buildTransform Q (buildCrs Q st ds.source_crs).2
      (buildCrs Q st ds.source_crs).1 dest with ⟨res, st₂⟩
  cases res with
  | error e => simp [processDataset, hq]
  | ok tr =>
    cases hw : writeFeatures Q payload ds (buildFeatures Q (some ds) ds.features tr) dest with
    | false => simp [processDataset, hq, hw]
    | true => simp [processDataset, hq, hw]

theorem runDatasets_length (Q : Qgis) (payload : ExportPayload) (dest : Q.CRS) :
    ∀ (l : List Dataset) (st : RunState Q),
      ((runDatasets Q payload dest st l).1).length = l.length := by
  intro l
  induction l with
  | nil => intro st; rfl
  | cons ds rest ih =>
    intro st
    simp [runDatasets, ih]

theorem runDatasets_get (Q : Qgis) (payload : ExportPayload) (dest : Q.CRS) :
    ∀ (l : List Dataset) (st : RunState Q) (i : Nat)
      (h1 : i < ((runDatasets Q payload dest st l).1).length) (h2 : i < l.length),
      (((runDatasets Q payload dest st l).1).get ⟨i, h1⟩).hash = (l.get ⟨i, h2⟩).hash ∧
      ((((runDatasets Q payload dest st l).1).get ⟨i, h1⟩).status = "processed" ∨
       (((runDatasets Q payload dest st l).1).get ⟨i, h1⟩).status = "failed") ∧
      ((((runDatasets Q payload dest st l).1).get ⟨i, h1⟩).error.isSome = true →
       (((runDatasets Q payload dest st l).1).get ⟨i, h1⟩).status = "failed") := by
  intro l
  induction l with
  | nil => intro st i h1 h2; exact absurd h2 (Nat.not_lt_zero i)
  | cons ds rest ih =>
    intro st i h1 h2
    cases i with
    | zero => simpa [runDatasets] using processDataset_fst Q payload dest st ds
    | succ n =>
      have h1n : n <
          ((runDatasets Q payload dest (processDataset Q payload dest st ds).2 rest).1).length := by
        have := h1
        simp only [runDatasets, List.length_cons] at this
        exact Nat.lt_of_succ_lt_succ this
      have h2n : n < rest.length := Nat.lt_of_succ_lt_succ h2
      simpa [runDatasets] using ih (processDataset Q payload dest st ds).2 n h1n h2n

/-- C1: `run_export` emits exactly one result record per input dataset, in
input order; each record's hash is the dataset's hash unchanged and its
status is "processed" or "failed"; a record carrying an error field has
status "failed"; the loop body appends exactly one record per dataset and
then continues with the remaining datasets, and when the per-dataset
pipeline raises (transform construction, the engine call modelled as able to
raise), the emitted record is `{hash, "failed", error}`. -/
theorem C1_run_export (Q : Qgis) (payload : ExportPayload) (st₀ : RunState Q) :
    ((runExport Q payload st₀).1).length = payload.datasets.length ∧
    (∀ (i : Nat) (h1 : i < ((runExport Q payload st₀).1).length)
       (h2 : i < payload.datasets.length),
       (((runExport Q payload st₀).1).get ⟨i, h1⟩).hash =
         (payload.datasets.get ⟨i, h2⟩).hash ∧
       ((((runExport Q payload st₀).1).get ⟨i, h1⟩).status = "processed" ∨
        (((runExport Q payload st₀).1).get ⟨i, h1⟩).status = "failed") ∧
       ((((runExport Q payload st₀).1).get ⟨i, h1⟩).error.isSome = true →
        (((runExport Q payload st₀).1).get ⟨i, h1⟩).status = "failed")) ∧
    (∀ (dest : Q.CRS) (st : RunState Q) (ds : Dataset) (rest : List Dataset),
       (runDatasets Q payload dest st (ds :: rest)).1 =
         (processDataset Q payload dest st ds).1 ::
           (runDatasets Q payload dest (processDataset Q payload dest st ds).2 rest).1) ∧
    (∀ (dest : Q.CRS) (st : RunState Q) (ds : Dataset) (e : String),
       (buildTransform Q (buildCrs Q st ds.source_crs).2
          (buildCrs Q st ds.source_crs).1 dest).1 = Except.error e →
       (processDataset Q payload dest st ds).1 = ⟨ds.hash, "failed", some e⟩) := by
  refine ⟨runDatasets_length Q payload _ payload.datasets _, ?_, ?_, ?_⟩
  · intro i h1 h2
    exact runDatasets_get Q payload _ payload.datasets _ i h1 h2
  · intro dest st ds rest
    rfl
  · intro dest st ds e hbt
    rcases hq : buildTransform Q (buildCrs Q st ds.source_crs).2
        (buildCrs Q st ds.source_crs).1 dest with ⟨res, st₂⟩
    rw [hq] at hbt
    dsimp only at hbt
    subst hbt
    simp [processDataset, hq]

/-- C2: `_create_feature` never raises: an empty WKT, or WKT the engine
parses to an empty geometry (its behaviour on unparseable text), yields a
feature with the extracted attributes and no geometry; a raising step during
attribute extraction (`current_dataset` unset), geometry parsing, or
coordinate transform yields the failure marker `none`; and the orchestrator
drops `none` from the feature list of `run_export` while continuing with the
remaining features. -/
theorem C2_create_feature (Q : Qgis) (ds : Dataset)
    (props : List (String × Option PValue)) (w : String)
    (tr : Option Q.Transform) :
    (createFeature Q (some ds) ⟨props, ""⟩ tr = some ⟨extractList ds props, none⟩) ∧
    (w ≠ "" → ∀ g : Q.Geom, Q.fromWkt w = Except.ok g → Q.isEmptyGeom g = true →
       createFeature Q (some ds) ⟨props, w⟩ tr = some ⟨extractList ds props, none⟩) ∧
    (∀ f : Feature, createFeature Q none f tr = none) ∧
    (∀ e : String, w ≠ "" → Q.fromWkt w = Except.error e →
       createFeature Q (some ds) ⟨props, w⟩ tr = none) ∧
    (∀ (g : Q.Geom) (t : Q.Transform) (e : String), w ≠ "" →
       Q.fromWkt w = Except.ok g → Q.isEmptyGeom g = false →
       Q.transformGeom t g = Except.error e →
       createFeature Q (some ds) ⟨props, w⟩ (some t) = none) ∧
    (∀ (cur : Option Dataset) (f : Feature) (rest : List Feature),
       createFeature Q cur f tr = none →
       buildFeatures Q cur (f :: rest) tr = buildFeatures Q cur rest tr) ∧
    (∀ (cur : Option Dataset) (f : Feature) (rest : List Feature)
       (qf : QFeature Q.Geom),
       createFeature Q cur f tr = some qf →
       buildFeatures Q cur (f :: rest) tr = qf :: buildFeatures Q cur rest tr) := by
  refine ⟨?_, ?_, ?_, ?_, ?_, ?_, ?_⟩
  · simp [createFeature, extractAttributes]
  · intro hw g hg he
    simp [createFeature, extractAttributes, hw, hg, he]
  · intro f
    simp [createFeature, extractAttributes]
  · intro e hw hg
    simp [createFeature, extractAttributes, hw, hg]
  · intro g t e hw hg hemp htr
    simp [createFeature, extractAttributes, hw, hg, hemp, htr]
  · intro cur f rest h
    simp [buildFeatures, List.filterMap_cons, h]
  · intro cur f rest qf h
    simp [buildFeatures, List.filterMap_cons, h]

/-- C3: `_build_crs` never raises: the empty identifier logs a warning and
returns the process default CRS; an invalid identifier logs an error and
returns the default CRS without populating the cache; and any later lookup
of the same identifier string within the run returns the same handle as the
first resolution. -/
theorem C3_build_crs (Q : Qgis) (st : RunState Q) (s : String) :
    (buildCrs Q st "" =
       (st.default_crs, { st with log := st.log ++ [LogMsg.warnEmptyCrs] })) ∧
    (s ≠ "" → dictFind s st.crs_cache = none → Q.isValid (Q.construct s) = false →
       buildCrs Q st s =
         (st.default_crs, { st with log := st.log ++ [LogMsg.errInvalidCrs s] })) ∧
    (∀ (c : Q.CRS) (st₁ st₂ : RunState Q), buildCrs Q st s = (c, st₁) →
       Reach Q st₁ st₂ → (buildCrs Q st₂ s).1 = c) := by
  refine ⟨buildCrs_empty Q st, fun h1 h2 h3 => buildCrs_invalid Q st s h1 h2 h3, ?_⟩
  intro c st₁ st₂ hb hr
  by_cases h1 : s = ""
  · subst h1
    rw [buildCrs_empty Q st] at hb
    injection hb with hc hst
    rw [buildCrs_empty Q st₂]
    show st₂.default_crs = c
    rw [reach_default Q hr, ← hst]
    exact hc
  · cases h2 : dictFind s st.crs_cache with
    | some c₀ =>
      rw [buildCrs_hit Q st s h1 h2] at hb
      injection hb with hc hst
      rw [← hst] at hr
      have h2₂ := reach_crs_some Q hr h2
      rw [buildCrs_hit Q st₂ s h1 h2₂]
      exact hc
    | none =>
      by_cases h3 : Q.isValid (Q.construct s) = true
      · rw [buildCrs_new Q st s h1 h2 h3] at hb
        injection hb with hc hst
        have hks : dictFind s st₁.crs_cache = some (Q.construct s) := by
          rw [← hst]
          exact dictFind_cons_self s (Q.construct s) st.crs_cache
        have h2₂ := reach_crs_some Q hr hks
        rw [buildCrs_hit Q st₂ s h1 h2₂]
        exact hc
      · have h3f : Q.isValid (Q.construct s) = false := by simpa using h3
        rw [buildCrs_invalid Q st s h1 h2 h3f] at hb
        injection hb with hc hst
        have hnone : dictFind s st₁.crs_cache = none := by
          rw [← hst]
          exact h2
        have h2₂ := reach_crs_invalid Q hr h3f hnone
        rw [buildCrs_invalid Q st₂ s h1 h2₂ h3f]
        show st₂.default_crs = c
        rw [reach_default Q hr, ← hst]
        exact hc

/-- C4: `_build_transform` returns `None` whenever source and destination
denote the same CRS (assuming, as the engine guarantees, that CRS equality
agrees with the authority-code-or-WKT canonical identity); a transform is
constructed at most once per distinct key pair during a run starting from
empty caches (`constructed` stays duplicate-free); a cached pair is returned
as is; and once a transform has been produced for a pair, every later call
whose arguments have the same canonical identities returns that cached
object. -/
theorem C4_build_transform (Q : Qgis)
    (hEq : ∀ a b : Q.CRS, Q.crsEq a b = true ↔ canonKey Q a = canonKey Q b)
    (st₀ st : RunState Q)
    (h₀c : st₀.transform_cache = []) (h₀g : st₀.constructed = [])
    (hr : Reach Q st₀ st) :
    st.constructed.Nodup ∧
    (∀ src dst : Q.CRS, Q.crsEq src dst = true →
       buildTransform Q st src dst = (Except.ok none, st)) ∧
    (∀ (src dst : Q.CRS) (t : Q.Transform),
       dictFind (canonKey Q src, canonKey Q dst) st.transform_cache = some t →
       buildTransform Q st src dst = (Except.ok (some t), st)) ∧
    (∀ (src dst : Q.CRS) (t : Q.Transform) (st₁ : RunState Q),
       buildTransform Q st src dst = (Except.ok (some t), st₁) →
       ∀ st₂ : RunState Q, Reach Q st₁ st₂ →
       ∀ src₁ dst₁ : Q.CRS, canonKey Q src₁ = canonKey Q src →
         canonKey Q dst₁ = canonKey Q dst →
         (buildTransform Q st₂ src₁ dst₁).1 = Except.ok (some t)) := by
  have hinv₀ : TransCacheInv Q st₀ := by
    refine ⟨?_, ?_, ?_⟩
    · rw [h₀g]
      exact List.nodup_nil
    · intro k hk
      rw [h₀g] at hk
      exact absurd hk (List.not_mem_nil k)
    · intro k t hfind
      rw [h₀c] at hfind
      exact absurd hfind (by simp [dictFind])
  have hinv := transCacheInv_reach Q hEq hr hinv₀
  refine ⟨hinv.1, ?_, ?_, ?_⟩
  · intro src dst hcrs
    have hkey := (hEq src dst).mp hcrs
    cases hfind : dictFind (canonKey Q src, canonKey Q dst) st.transform_cache with
    | some t => exact absurd hkey (hinv.2.2 _ t hfind)
    | none => exact buildTransform_same Q st src dst hfind hcrs
  · intro src dst t hfind
    exact buildTransform_hit Q st src dst hfind
  · intro src dst t st₁ hb st₂ hr₂ src₁ dst₁ hk1 hk2
    have hfind₁ : dictFind (canonKey Q src, canonKey Q dst) st₁.transform_cache = some t := by
      cases hfind : dictFind (canonKey Q src, canonKey Q dst) st.transform_cache with
      | some t₀ =>
        rw [buildTransform_hit Q st src dst hfind] at hb
        have ht : t₀ = t := by
          have h := congrArg Prod.fst hb
          simpa using h
        have hst : st = st₁ := congrArg Prod.snd hb
        rw [← hst, hfind]
        exact congrArg some ht
      | none =>
        cases hc : Q.crsEq src dst with
        | true =>
          rw [buildTransform_same Q st src dst hfind hc] at hb
          have h := congrArg Prod.fst hb
          simp at h
        | false =>
          cases hm : Q.mkTransform src dst with
          | error e =>
            rw [buildTransform_raise Q st src dst hfind hc hm] at hb
            have h := congrArg Prod.fst hb
            simp at h
          | ok t₀ =>
            rw [buildTransform_miss Q st src dst hfind hc hm] at hb
            have ht : t₀ = t := by
              have h := congrArg Prod.fst hb
              simpa using h
            have hst : { st with
                transform_cache :=
                  ((canonKey Q src, canonKey Q dst), t₀) :: st.transform_cache
                constructed :=
                  (canonKey Q src, canonKey Q dst) :: st.constructed } = st₁ :=
              congrArg Prod.snd hb
            rw [← hst]
            show dictFind (canonKey Q src, canonKey Q dst)
              (((canonKey Q src, canonKey Q dst), t₀) :: st.transform_cache) = some t
            rw [dictFind_cons_self]
            exact congrArg some ht
    have hfind₂ := reach_transform_some Q hr₂ hfind₁
    have hfindk : dictFind (canonKey Q src₁, canonKey Q dst₁) st₂.transform_cache = some t := by
      rw [hk1, hk2]
      exact hfind₂
    rw [buildTransform_hit Q st₂ src₁ dst₁ hfindk]

/-- C5: attribute extraction returns one value per field definition in the
fixed schema order (the nine-element row below); the reserved `WJLJ` slot is
always the dataset's `source_path`, independent of the property map; every
other slot is the first present candidate key's value; and a field none of
whose candidate keys are present yields `none`, never an error. -/
theorem C5_extract_attributes (ds : Dataset)
    (props : List (String × Option PValue)) :
    extractAttributes (some ds) props = Except.ok [
      lookupFirst props ["bp_cnt"],
      lookupFirst props ["area"],
      lookupFirst props ["pid"],
      lookupFirst props ["pname"],
      lookupFirst props ["gtype"],
      lookupFirst props ["sheet"],
      lookupFirst props ["usage"],
      lookupFirst props ["code"],
      some (PValue.str ds.source_path)] ∧
    (∀ keys : List String, (∀ k ∈ keys, dictFind k props = none) →
       lookupFirst props keys = none) := by
  constructor
  · rfl
  · intro keys
    induction keys with
    | nil => intro _; rfl
    | cons k ks ih =>
      intro hk
      have h1 : dictFind k props = none := hk k (List.mem_cons_self k ks)
      have h2 : ∀ k₁ ∈ ks, dictFind k₁ props = none :=
        fun k₁ hm => hk k₁ (List.mem_cons_of_mem k hm)
      simp [lookupFirst, h1, ih h2]

/-- C6: write-option preparation: for a container driver the target path is
the output directory and the display path the path-plus-layer composite; for
a single-file driver the target is the directory joined with the layer name
(and the display path equals it); the action is overwrite-layer exactly for
an existing target with the overwrite flag under a container driver,
overwrite-file (the same constant as create-or-overwrite-file) in the
existing-and-overwrite single-file case, and create-or-overwrite-file in
every other case. -/
theorem C6_save_options (Q : Qgis) (payload : ExportPayload) (ds : Dataset) :
    (isContainer payload.driver = true →
       (prepareSaveOptions Q payload ds).2.1 = payload.output_dir ∧
       (prepareSaveOptions Q payload ds).2.2 =
         payload.output_dir ++ "|layername=" ++ ds.layer_name) ∧
    (isContainer payload.driver = false →
       (prepareSaveOptions Q payload ds).2.1 = pathJoin payload.output_dir ds.layer_name ∧
       (prepareSaveOptions Q payload ds).2.2 = (prepareSaveOptions Q payload ds).2.1) ∧
    ((prepareSaveOptions Q payload ds).1.actionOnExistingFile =
        SaveAction.createOrOverwriteLayer ↔
      (isContainer payload.driver = true ∧
       Q.pathExists ((prepareSaveOptions Q payload ds).2.1) = true ∧
       payload.overwrite = true)) ∧
    (Q.pathExists ((prepareSaveOptions Q payload ds).2.1) = true →
       payload.overwrite = true →
       (prepareSaveOptions Q payload ds).1.actionOnExistingFile =
         (if isContainer payload.driver then SaveAction.createOrOverwriteLayer
          else SaveAction.createOrOverwriteFile)) ∧
    (¬(Q.pathExists ((prepareSaveOptions Q payload ds).2.1) = true ∧
        payload.overwrite = true) →
       (prepareSaveOptions Q payload ds).1.actionOnExistingFile =
         SaveAction.createOrOverwriteFile) ∧
    (isContainer payload.driver = false →
       (prepareSaveOptions Q payload ds).1.actionOnExistingFile =
         SaveAction.createOrOverwriteFile) := by
  refine ⟨?_, ?_, ?_, ?_, ?_, ?_⟩
  · intro h
    constructor
    · simp [prepareSaveOptions, targetPathFor, h]
    · simp [prepareSaveOptions, displayPathFor, targetPathFor, h]
  · intro h
    constructor
    · simp [prepareSaveOptions, targetPathFor, h]
    · simp [prepareSaveOptions, displayPathFor, h]
  · by_cases hc : isContainer payload.driver = true <;>
      by_cases hex : Q.pathExists (targetPathFor payload ds) = true <;>
      by_cases hov : payload.overwrite = true <;>
      simp [prepareSaveOptions, saveActionFor, hc, hex, hov]
  · intro hex hov
    by_cases hc : isContainer payload.driver = true <;>
      simp_all [prepareSaveOptions, saveActionFor]
  · intro hcond
    by_cases hc : isContainer payload.driver = true <;>
      simp_all [prepareSaveOptions, saveActionFor]
  · intro hc
    by_cases hex : Q.pathExists (targetPathFor payload ds) = true <;>
      by_cases hov : payload.overwrite = true <;>
      simp_all [prepareSaveOptions, saveActionFor]

theorem buildFeatures_nil_of_none (Q : Qgis) (cur : Option Dataset)
    (tr : Option Q.Transform) :
    ∀ l : List Feature, (∀ f ∈ l, createFeature Q cur f tr = none) →
      buildFeatures Q cur l tr = [] := by
  intro l
  induction l with
  | nil => intro _; rfl
  | cons f rest ih =>
    intro h
    have h1 : createFeature Q cur f tr = none := h f (List.mem_cons_self f rest)
    have h2 : ∀ f₁ ∈ rest, createFeature Q cur f₁ tr = none :=
      fun f₁ hm => h f₁ (List.mem_cons_of_mem f hm)
    simpa [buildFeatures, List.filterMap_cons, h1] using ih h2

/-- C7: `_write_features` never raises (it is a total boolean): it returns
`false` exactly when the writer reports a construction error or a non-empty
feature list fails to add; with an empty feature list the writer is still
created, no add is attempted and the result is `true`; consequently a
dataset all of whose features failed to build is reported "processed" when
the writer succeeds. -/
theorem C7_write_features (Q : Qgis) (payload : ExportPayload) (ds : Dataset)
    (features : List (QFeature Q.Geom)) (dest : Q.CRS) :
    ((writeFeaturesCore Q payload ds features dest).success = false ↔
       (Q.hasError (Q.createWriter (writerRequestFor Q payload ds dest)) = true ∨
        (features ≠ [] ∧
         Q.addFeatures (Q.createWriter (writerRequestFor Q payload ds dest))
           features = false))) ∧
    (Q.hasError (Q.createWriter (writerRequestFor Q payload ds dest)) = false →
       features = [] →
       (writeFeaturesCore Q payload ds features dest).success = true ∧
       (writeFeaturesCore Q payload ds features dest).addAttempted = false) ∧
    ((writeFeaturesCore Q payload ds features dest).addAttempted = true ↔
       (Q.hasError (Q.createWriter (writerRequestFor Q payload ds dest)) = false ∧
        features ≠ [])) ∧
    (∀ (st : RunState Q) (tr : Option Q.Transform),
       (buildTransform Q (buildCrs Q st ds.source_crs).2
          (buildCrs Q st ds.source_crs).1 dest).1 = Except.ok tr →
       (∀ f ∈ ds.features, createFeature Q (some ds) f tr = none) →
       writeFeatures Q payload ds [] dest = true →
       (processDataset Q payload dest st ds).1 = ⟨ds.hash, "processed", none⟩) := by
  refine ⟨?_, ?_, ?_, ?_⟩
  · cases he : Q.hasError (Q.createWriter (writerRequestFor Q payload ds dest)) with
    | true => simp [writeFeaturesCore, he]
    | false =>
      cases features with
      | nil => simp [writeFeaturesCore, he]
      | cons f fs =>
        cases ha : Q.addFeatures (Q.createWriter (writerRequestFor Q payload ds dest))
            (f :: fs) with
        | true => simp [writeFeaturesCore, he, ha]
        | false => simp [writeFeaturesCore, he, ha]
  · intro he hf
    subst hf
    simp [writeFeaturesCore, he]
  · cases he : Q.hasError (Q.createWriter (writerRequestFor Q payload ds dest)) with
    | true => simp [writeFeaturesCore, he]
    | false =>
      cases features with
      | nil => simp [writeFeaturesCore, he]
      | cons f fs =>
        cases ha : Q.addFeatures (Q.createWriter (writerRequestFor Q payload ds dest))
            (f :: fs) with
        | true => simp [writeFeaturesCore, he, ha]
        | false => simp [writeFeaturesCore, he, ha]
  · intro st tr hbt hall hw
    rcases hq : buildTransform Q (buildCrs Q st ds.source_crs).2
        (buildCrs Q st ds.source_crs).1 dest with ⟨res, st₂⟩
    rw [hq] at hbt
    dsimp only at hbt
    subst hbt
    have hnil := buildFeatures_nil_of_none Q (some ds) tr ds.features hall
    simp [processDataset, hq, hnil, hw]

/-- C8: the process exits with code 1 and no result records when the
bootstrap installation-root argument is missing or the input document fails
to parse into the expected shape; it exits with code 0 on normal completion,
including empty stdin, a batch with zero datasets, and batches whose
datasets fail individually. -/
theorem C8_main (Q : Qgis) (a input : String)
    (parseInput : String → Except String ExportPayload) :
    (mainRun Q none input parseInput = ⟨1, []⟩) ∧
    (mainRun Q (some a) "" parseInput = ⟨0, []⟩) ∧
    (∀ e : String, input ≠ "" → parseInput input = Except.error e →
       mainRun Q (some a) input parseInput = ⟨1, []⟩) ∧
    (∀ (payload : ExportPayload) (st₀ : RunState Q), input ≠ "" →
       parseInput input = Except.ok payload → initState Q = some st₀ →
       mainRun Q (some a) input parseInput = ⟨0, (runExport Q payload st₀).1⟩) ∧
    (∀ (payload : ExportPayload) (st₀ : RunState Q), input ≠ "" →
       parseInput input = Except.ok payload → initState Q = some st₀ →
       payload.datasets = [] →
       mainRun Q (some a) input parseInput = ⟨0, []⟩) := by
  refine ⟨rfl, by simp [mainRun], ?_, ?_, ?_⟩
  · intro e hin hp
    simp [mainRun, hin, hp]
  · intro payload st₀ hin hp hi
    simp [mainRun, hin, hp, hi]
  · intro payload st₀ hin hp hi hds
    simp [mainRun, hin, hp, hi, runExport, hds, runDatasets]

theorem writeFeaturesCore_request (Q : Qgis) (payload : ExportPayload)
    (ds : Dataset) (features : List (QFeature Q.Geom)) (dest : Q.CRS) :
    (writeFeaturesCore Q payload ds features dest).request =
      writerRequestFor Q payload ds dest := by
  cases he : Q.hasError (Q.createWriter (writerRequestFor Q payload ds dest)) with
  | true => simp [writeFeaturesCore, he]
  | false =>
    cases features with
    | nil => simp [writeFeaturesCore, he]
    | cons f fs =>
      cases ha : Q.addFeatures (Q.createWriter (writerRequestFor Q payload ds dest))
          (f :: fs) with
      | true => simp [writeFeaturesCore, he, ha]
      | false => simp [writeFeaturesCore, he, ha]

/-- C9: every output layer is created with the fixed Polygon geometry type:
the creation request passed to the writer carries `WkbType.polygon` for
every payload, dataset, feature list and destination CRS. -/
theorem C9_polygon_type (Q : Qgis) (payload : ExportPayload) (ds : Dataset)
    (features : List (QFeature Q.Geom)) (dest : Q.CRS) :
    (writeFeaturesCore Q payload ds features dest).request.wkbType =
      WkbType.polygon := by
  rw [writeFeaturesCore_request]
  rfl

theorem processDataset_merge (Q : Qgis) (payload : ExportPayload) (b : Bool)
    (dest : Q.CRS) (st : RunState Q) (ds : Dataset) :
    processDataset Q { payload with merge := b } dest st ds =
      processDataset Q payload dest st ds := rfl

theorem runDatasets_merge (Q : Qgis) (payload : ExportPayload) (b : Bool)
    (dest : Q.CRS) :
    ∀ (l : List Dataset) (st : RunState Q),
      runDatasets Q { payload with merge := b } dest st l =
        runDatasets Q payload dest st l := by
  intro l
  induction l with
  | nil => intro st; rfl
  | cons ds rest ih =>
    intro st
    simp only [runDatasets, processDataset_merge]
    rw [ih]

/-- C10: two runs on payloads differing only in the merge flag produce
identical results: the flag is stored on `ExportPayload` but never read by
any processing, write or result-emission step. -/
theorem C10_merge_flag (Q : Qgis) (payload : ExportPayload) (b₁ b₂ : Bool)
    (st : RunState Q) :
    runExport Q { payload with merge := b₁ } st =
      runExport Q { payload with merge := b₂ } st := by
  show runDatasets Q { payload with merge := b₁ }
      (buildCrs Q st payload.target_crs).1 (buildCrs Q st payload.target_crs).2
      payload.datasets =
    runDatasets Q { payload with merge := b₂ }
      (buildCrs Q st payload.target_crs).1 (buildCrs Q st payload.target_crs).2
      payload.datasets
  rw [runDatasets_merge Q payload b₁, runDatasets_merge Q payload b₂]

/-! ### A concrete engine instance, for exercising the theorems on closed
inputs.  CRS handles are their definition strings, transforms are the pair
of endpoint strings, geometries are their WKT text. -/

@[reducible] def mockQgis : Qgis where
  CRS := String
  Transform := String × String
  Geom := String
  Writer := Bool
  construct := fun s => s
  isValid := fun s => decide (s ≠ "BAD" ∧ s ≠ "")
  authid := fun _ => ""
  toWkt := fun s => s
  crsEq := fun a b => a == b
  mkTransform := fun a b =>
    if a = "RAISE" ∨ b = "RAISE" then Except.error "transform construction failed"
    else Except.ok (a, b)
  fromWkt := fun w => if w = "THROW" then Except.error "wkt parse failure" else Except.ok w
  isEmptyGeom := fun g => g == "GARBAGE"
  transformGeom := fun t g =>
    if g = "HARD" then Except.error "projection failure" else Except.ok (g ++ "->" ++ t.2)
  pathExists := fun p => p == "/out"
  createWriter := fun req => req.opts.layerName == "badlayer"
  hasError := fun w => w
  addFeatures := fun _ fs => decide (fs.length < 3)

theorem mock_hEq : ∀ a b : mockQgis.CRS,
    mockQgis.crsEq a b = true ↔ canonKey mockQgis a = canonKey mockQgis b := by
  intro a b
  simp [mockQgis, canonKey]

def mockState : RunState mockQgis :=
  { crs_cache := []
    transform_cache := []
    constructed := []
    default_crs := "EPSG:4526"
    log := [] }

def mockInitState : RunState mockQgis :=
  { crs_cache := [("EPSG:4526", "EPSG:4526")]
    transform_cache := []
    constructed := []
    default_crs := "EPSG:4526"
    log := [] }

def mockDatasetA : Dataset :=
  { features := [⟨[("pid", some (PValue.str "001"))], "POLY"⟩]
    hash := "a1"
    layer_name := "parcels"
    source_crs := "EPSG:4490"
    source_path := "/tmp/a.json"
    total_features := 1 }

def mockDatasetRaise : Dataset :=
  { features := []
    hash := "b2"
    layer_name := "lots"
    source_crs := "RAISE"
    source_path := "/tmp/b.json"
    total_features := 0 }

def mockDatasetFail : Dataset :=
  { features := [⟨[], "THROW"⟩]
    hash := "c3"
    layer_name := "plots"
    source_crs := "EPSG:4490"
    source_path := "/tmp/c.json"
    total_features := 1 }

def mockPayload : ExportPayload :=
  { datasets := [mockDatasetA, mockDatasetRaise]
    driver := "GPKG"
    merge := false
    output_dir := "/out"
    overwrite := true
    target_crs := "EPSG:4490" }

def mockParse : String → Except String ExportPayload :=
  fun s => if s = "GOOD" then Except.ok mockPayload else Except.error "bad document"

/-- C1 witness: the mock batch yields one record per dataset, and the
dataset whose transform construction raises yields the failed record with
the error message. -/
theorem C1_run_export_witness :
    ((runExport mockQgis mockPayload mockState).1).length =
      mockPayload.datasets.length ∧
    (processDataset mockQgis mockPayload "EPSG:4490" mockState mockDatasetRaise).1 =
      ⟨"b2", "failed", some "transform construction failed"⟩ :=
  ⟨(C1_run_export mockQgis mockPayload mockState).1,
   (C1_run_export mockQgis mockPayload mockState).2.2.2 "EPSG:4490" mockState
     mockDatasetRaise "transform construction failed" rfl⟩

/-- C2 witness: WKT the mock engine parses to an empty geometry yields a
feature with attributes but no geometry. -/
theorem C2_create_feature_witness :
    createFeature mockQgis (some mockDatasetA)
        ⟨[("pid", some (PValue.str "001"))], "GARBAGE"⟩ none =
      some ⟨extractList mockDatasetA [("pid", some (PValue.str "001"))], none⟩ :=
  (C2_create_feature mockQgis mockDatasetA [("pid", some (PValue.str "001"))]
      "GARBAGE" none).2.1 (by decide) "GARBAGE" rfl rfl

/-- C3 witness: resolving the invalid identifier "BAD" logs an error and
returns the default CRS without touching the cache. -/
theorem C3_build_crs_witness :
    buildCrs mockQgis mockState "BAD" =
      (mockState.default_crs,
       { mockState with log := mockState.log ++ [LogMsg.errInvalidCrs "BAD"] }) :=
  (C3_build_crs mockQgis mockState "BAD").2.1 (by decide) rfl rfl

/-- C4 witness: asking for a transform between two handles of the same CRS
returns no transform and leaves the state unchanged. -/
theorem C4_build_transform_witness :
    buildTransform mockQgis mockState "EPSG:4490" "EPSG:4490" =
      (Except.ok none, mockState) :=
  (C4_build_transform mockQgis mock_hEq mockState mockState rfl rfl
      (Reach.refl mockState)).2.1 "EPSG:4490" "EPSG:4490" rfl

/-- C5 witness: the attribute row for a property map supplying only `pid`,
and the null result when no candidate key is present. -/
theorem C5_extract_attributes_witness :
    extractAttributes (some mockDatasetA) [("pid", some (PValue.str "001"))] =
      Except.ok [none, none, some (PValue.str "001"), none, none, none, none, none,
        some (PValue.str "/tmp/a.json")] ∧
    lookupFirst ([] : List (String × Option PValue)) ["bp_cnt"] = none :=
  ⟨(C5_extract_attributes mockDatasetA [("pid", some (PValue.str "001"))]).1,
   (C5_extract_attributes mockDatasetA []).2 ["bp_cnt"] (by decide)⟩

/-- C6 witness: for the GPKG payload with an existing target and the
overwrite flag, the target is the output directory, the display path the
composite, and the action overwrite-layer. -/
theorem C6_save_options_witness :
    (prepareSaveOptions mockQgis mockPayload mockDatasetA).2.1 = "/out" ∧
    (prepareSaveOptions mockQgis mockPayload mockDatasetA).2.2 =
      "/out" ++ "|layername=" ++ "parcels" ∧
    (prepareSaveOptions mockQgis mockPayload mockDatasetA).1.actionOnExistingFile =
      SaveAction.createOrOverwriteLayer :=
  ⟨((C6_save_options mockQgis mockPayload mockDatasetA).1 (by decide)).1,
   ((C6_save_options mockQgis mockPayload mockDatasetA).1 (by decide)).2,
   (C6_save_options mockQgis mockPayload mockDatasetA).2.2.1.mpr
     ⟨by decide, by decide, rfl⟩⟩

/-- C7 witness: the dataset whose only feature fails to build still writes
an empty layer and is reported "processed". -/
theorem C7_write_features_witness :
    (processDataset mockQgis mockPayload "EPSG:4490" mockState mockDatasetFail).1 =
      ⟨"c3", "processed", none⟩ :=
  (C7_write_features mockQgis mockPayload mockDatasetFail [] "EPSG:4490").2.2.2
    mockState none rfl (by decide) rfl

/-- C8 witness: missing bootstrap argument and malformed input exit 1 with
no records; a well-formed document runs the batch and exits 0. -/
theorem C8_main_witness :
    mainRun mockQgis none "x" mockParse = ⟨1, []⟩ ∧
    mainRun mockQgis (some "/usr/share/qgis") "oops" mockParse = ⟨1, []⟩ ∧
    mainRun mockQgis (some "/usr/share/qgis") "GOOD" mockParse =
      ⟨0, (runExport mockQgis mockPayload mockInitState).1⟩ :=
  ⟨(C8_main mockQgis "/usr/share/qgis" "x" mockParse).1,
   (C8_main mockQgis "/usr/share/qgis" "oops" mockParse).2.2.1 "bad document"
     (by decide) rfl,
   (C8_main mockQgis "/usr/share/qgis" "GOOD" mockParse).2.2.2.1 mockPayload
     mockInitState (by decide) rfl rfl⟩

end GeoExport
